import Mathlib

/-!
Verification development for the edubot backend (src/backend/app.py).

The service is a stateless FastAPI app with three endpoints: audio upload
plus transcription, bullet-summary generation and quiz generation.  The
external providers (Deepgram speech-to-text, Groq LLM) are opaque network
collaborators; we model every provider interaction by its outcome, passed in
as an explicit argument (an `Except` value or a small outcome type).  All
Python values flowing through the JSON-shaped quiz pipeline are modelled by
the `PyVal` type below; Python `int`/`bool`/`float`/`str`/`list`/`dict`
distinctions matter to the validation code (`isinstance` checks) and are
kept.  Strings in request bodies are modelled as `List Char` where only
length and slicing matter (Python slicing is by character).
-/

/-- Python values produced by `json.loads` and flowing through the quiz
pipeline.  `obj` keeps insertion order, as Python dicts do; keys are unique.
`float` is carried but never computed with, so an exact carrier suffices. -/
inductive PyVal where
  | null : PyVal
  | bool : Bool → PyVal
  | int : Int → PyVal
  | float : Rat → PyVal
  | str : String → PyVal
  | arr : List PyVal → PyVal
  | obj : List (String × PyVal) → PyVal

/-- Python dict lookup (keys are unique in a dict; first match). -/
def lookupField : List (String × PyVal) → String → Option PyVal
  | [], _ => none
  | (k1, v) :: rest, k => if k1 = k then some v else lookupField rest k

/-- Python dict assignment `d[k] = v`: replaces in place, or appends. -/
def setField : List (String × PyVal) → String → PyVal → List (String × PyVal)
  | [], k, v => [(k, v)]
  | (k1, v1) :: rest, k, v =>
      if k1 = k then (k, v) :: rest else (k1, v1) :: setField rest k v

/-- Python `len(x)`: defined for sized containers, `TypeError` otherwise. -/
def pyLen : PyVal → Except String Nat
  | .arr xs => .ok xs.length
  | .str s => .ok s.length
  | .obj fs => .ok fs.length
  | _ => .error "TypeError: object has no len"

/-- Python `for x in v`: the sequence of iterates.  Iterating a `str` yields
its one-character strings, iterating a dict yields its keys; other
non-sequence values raise `TypeError`. -/
def pyIter : PyVal → Except String (List PyVal)
  | .arr xs => .ok xs
  | .str s => .ok (s.toList.map (fun c => PyVal.str (String.mk [c])))
  | .obj fs => .ok (fs.map (fun kv => PyVal.str kv.1))
  | _ => .error "TypeError: object is not iterable"

/-- Character-list version of string containment: `needle` occurs as a
prefix of `haystack`. -/
def startsWithChars : List Char → List Char → Bool
  | [], _ => true
  | _ :: _, [] => false
  | a :: as, b :: bs => a = b && startsWithChars as bs

/-- Character-list version of string containment: `needle` occurs as a
contiguous run of `haystack`. -/
def containsChars (needle : List Char) : List Char → Bool
  | [] => startsWithChars needle []
  | b :: bs => startsWithChars needle (b :: bs) || containsChars needle bs

/-- Python `needle in container` for a string needle, in the forms the code
can reach: key test on a dict, substring test on a str, equality membership
on a list (a str compares equal only to an equal str), `TypeError` on
non-containers. -/
def pyContains (needle : String) : PyVal → Except String Bool
  | .obj fs => .ok (lookupField fs needle).isSome
  | .str s => .ok (containsChars needle.toList s.toList)
  | .arr xs => .ok (xs.any (fun v => match v with | .str s => s == needle | _ => false))
  | _ => .error "TypeError: argument is not a container"

/-- Python `s.startswith(p)`. -/
def pyStartsWith (s p : String) : Bool :=
  startsWithChars p.toList s.toList

/-- Python `str.isdigit` restricted to ASCII digit strings (the only inputs
relevant here): nonempty and all digits. -/
def pyIsDigit (s : String) : Bool :=
  !s.toList.isEmpty && s.toList.all Char.isDigit

/-- Python `int(s)` on a digit string. -/
def strToNat (s : String) : Nat :=
  s.toList.foldl (fun a c => a * 10 + (c.toNat - 48)) 0

/-- Python `isinstance(x, int)` view of a value: `bool` is an int subclass
in Python (`True` counts as `1`). -/
def asPyInt : PyVal → Option Int
  | .int n => some n
  | .bool b => some (if b then 1 else 0)
  | _ => none

/-! ## Transcript truncation (lines 256-261 and 419-423 of app.py)

`truncated_transcript = request.transcript[:16000]` followed by appending a
marker when the original was longer. -/

def max_length : Nat := 16000

def truncation_marker : List Char := "\n[Transcript truncated due to length...]".toList

/-- The truncation policy both the summary endpoint and the quiz endpoint
apply before calling the LLM. -/
def truncate_transcript (t : List Char) : List Char :=
  let truncated := t.take max_length
  if t.length > max_length then truncated ++ truncation_marker else truncated

/-! ## Startup environment checks (lines 29-36 of app.py)

`DEEPGRAM_API_KEY = os.getenv(...)` gives `None` when absent; `if not key`
is true for `None` and for the empty string. -/

/-- Python falsiness of an optional environment string. -/
def keyFalsy : Option String → Bool
  | none => true
  | some s => s.isEmpty

/-- Module top-level check: a falsy `DEEPGRAM_API_KEY` raises `ValueError`
at import time, i.e. startup fails.  (A falsy `GROQ_API_KEY` only prints a
warning and leaves the module loadable, so it does not appear here.) -/
def startup_check (deepgramKey : Option String) : Except String Unit :=
  if keyFalsy deepgramKey then .error "Missing DEEPGRAM_API_KEY environment variable"
  else .ok ()

/-! ## Transcription component (lines 56-120 of app.py) -/

/-- A sentence record of the provider response (`sentence.text/.start/.end`);
`stop` stands for the Python attribute `end`, a Lean keyword. -/
structure DGSentence where
  text : String
  start : Rat
  stop : Rat

/-- A paragraph of the provider response, holding its sentences in order. -/
structure DGParagraph where
  sentences : List DGSentence

/-- The part of the Deepgram SDK response the code reads: the transcript of
the first alternative of the first channel, and its paragraph list. -/
structure DGResponse where
  transcript : String
  paragraphs : List DGParagraph

/-- The mock payload returned when no Deepgram key is configured
(lines 59-71).  Note it has a `words` key, not a `sentences` key. -/
def mock_transcription : PyVal :=
  .obj [("transcript", .str "This is a mock transcription for development purposes. Please set the DEEPGRAM_API_KEY environment variable for actual transcription."),
        ("words", .arr
          [.obj [("word", .str "This"), ("start", .float 0), ("end", .float (3/10))],
           .obj [("word", .str "is"), ("start", .float (3/10)), ("end", .float (5/10))],
           .obj [("word", .str "a"), ("start", .float (5/10)), ("end", .float (6/10))],
           .obj [("word", .str "mock"), ("start", .float (6/10)), ("end", .float (9/10))],
           .obj [("word", .str "transcription"), ("start", .float (9/10)), ("end", .float (15/10))],
           .obj [("word", .str "for"), ("start", .float (15/10)), ("end", .float (18/10))],
           .obj [("word", .str "development"), ("start", .float (18/10)), ("end", .float (25/10))],
           .obj [("word", .str "purposes"), ("start", .float (25/10)), ("end", .float (31/10))]])]

/-- Flattening of the paragraph-sentence hierarchy into the ordered list of
formatted sentence dicts (lines 105-113). -/
def format_sentences (ps : List DGParagraph) : List PyVal :=
  (ps.map (fun p => p.sentences.map (fun s =>
    PyVal.obj [("text", .str s.text), ("start", .float s.start), ("end", .float s.stop)]))).flatten

/-- HTTPException as seen by the HTTP layer. -/
structure HTTPError where
  status : Nat
  detail : String

/-- `transcribe_audio` (lines 56-120): with a falsy key the fixed mock
payload is returned without touching the file; otherwise the provider call
outcome decides: a raised provider error becomes `HTTPException(500, ...)`,
a response is flattened into the transcript-and-sentences dict. -/
def transcribe_audio (deepgramKey : Option String)
    (provider : Except String DGResponse) : Except HTTPError PyVal :=
  if keyFalsy deepgramKey then .ok mock_transcription
  else
    match provider with
    | .error e => .error ⟨500, "Error during transcription: " ++ e⟩
    | .ok r => .ok (.obj [("transcript", .str r.transcript),
                          ("sentences", .arr (format_sentences r.paragraphs))])

/-! ## Upload endpoint (lines 122-162 of app.py)

The upload directory is modelled as the list of file names present; the
generated collision-resistant unique name is passed in as `uniqueName`.
Saving the upload (`open` + `shutil.copyfileobj`) can fail before the file
is created (the `open` itself raises) or after (the copy raises, the file
has been created and remains); both are caught and re-raised as a 500. -/

inductive SaveOutcome where
  | ok : SaveOutcome
  | failAfterCreate : String → SaveOutcome
  | failBeforeCreate : String → SaveOutcome

/-- `if os.path.exists(p): os.remove(p)`. -/
def removeIfExists (files : List String) (f : String) : List String :=
  files.filter (fun g => g != f)

/-- Response of the transcribe endpoint on success (lines 148-153). -/
structure TranscribeResponse where
  success : Bool
  filename : String
  transcription : PyVal
  sentences : PyVal

/-- `transcribe_audio_endpoint`: returns the HTTP outcome and the final
contents of the upload directory.  The `except` block removes the file and
re-raises, then the `finally` block removes it again (a no-op the second
time); on success only the `finally` block removes it.  The dict accesses
`result["transcript"]` and `result["sentences"]` happen inside the same
`try`, so a missing key also takes the cleanup path (surfacing as a generic
500 through FastAPI). -/
def transcribe_audio_endpoint (contentType filename uniqueName : String)
    (save : SaveOutcome) (tr : Except HTTPError PyVal) (files0 : List String) :
    Except HTTPError TranscribeResponse × List String :=
  if !(pyStartsWith contentType "audio/") then
    (.error ⟨400, "File must be an audio file"⟩, files0)
  else
    match save with
    | .failBeforeCreate m => (.error ⟨500, "Error saving file: " ++ m⟩, files0)
    | .failAfterCreate m => (.error ⟨500, "Error saving file: " ++ m⟩, files0 ++ [uniqueName])
    | .ok =>
      let files1 := files0 ++ [uniqueName]
      match tr with
      | .error e => (.error e, removeIfExists (removeIfExists files1 uniqueName) uniqueName)
      | .ok result =>
        match lookupField2 result "transcript" with
        | .error e => (.error e, removeIfExists (removeIfExists files1 uniqueName) uniqueName)
        | .ok t =>
          match lookupField2 result "sentences" with
          | .error e => (.error e, removeIfExists (removeIfExists files1 uniqueName) uniqueName)
          | .ok s => (.ok ⟨true, filename, t, s⟩, removeIfExists files1 uniqueName)
where
  /-- dict subscript `result[k]`; a missing key raises, which FastAPI turns
  into a generic 500. -/
  lookupField2 (v : PyVal) (k : String) : Except HTTPError PyVal :=
    match v with
    | .obj fs =>
      match lookupField fs k with
      | some x => .ok x
      | none => .error ⟨500, "Internal Server Error"⟩
    | _ => .error ⟨500, "Internal Server Error"⟩

/-! ## Summary generator (lines 164-237 of app.py)

The Groq call is an opaque collaborator: `llm` is the outcome of the
`try`-block body (prompt construction, the chat completion call and the
extraction of `response.choices[0].message.content`), `.ok` carrying the
content string, `.error` carrying a raised exception message. -/

/-- The fixed mock summary returned when no Groq key or client is
configured (lines 170-175). -/
def mock_summary : String :=
  "\n        • This is a mock summary for development purposes.\n        • Please set the GROQ_API_KEY environment variable for actual summary generation.\n        • The real summary would extract key points from the transcript.\n        • It would be organized as a bullet-point list for easy reading.\n        "

/-- `generate_bullet_summary`: the stub branch returns the mock string; in
live mode a caught call failure becomes an error-embedding string, so the
function always returns a string.  `hasGroq` models
`GROQ_API_KEY and groq_client` both being set.  The transcript only feeds
the prompt, which is part of the opaque call. -/
def generate_bullet_summary (hasGroq : Bool) (llm : Except String String)
    (_transcript : List Char) : String :=
  if !hasGroq then mock_summary
  else
    match llm with
    | .ok content => content
    | .error e => "Error generating summary: " ++ e

/-! ## Quiz generator (lines 272-394 of app.py) -/

/-- The two fixed mock questions of stub mode (lines 278-299). -/
def mock_quiz_questions : List PyVal :=
  [.obj [("question", .str "What is the main topic of this mock transcript?"),
         ("options", .arr [.str "Artificial Intelligence", .str "Machine Learning",
                           .str "Data Science", .str "Mock Data"]),
         ("correct_answer", .int 3)],
   .obj [("question", .str "This is a mock question because..."),
         ("options", .arr [.str "The GROQ_API_KEY is not set", .str "The transcript is too short",
                           .str "The system is in testing mode", .str "All of the above"]),
         ("correct_answer", .int 0)]]

/-- The synthetic question of the inner `except` (lines 387-389), covering
JSON parse failures and any exception of the extraction/validation block. -/
def error_parsing_question (e : String) : PyVal :=
  .obj [("question", .str ("Error parsing quiz questions: " ++ e)),
        ("options", .arr [.str "Error", .str "Try again", .str "Check logs", .str "Contact support"]),
        ("correct_answer", .int 2)]

/-- The synthetic question of the outer `except` (lines 391-394), covering a
raised LLM call. -/
def error_generating_question (e : String) : PyVal :=
  .obj [("question", .str ("Error generating quiz: " ++ e)),
        ("options", .arr [.str "Error", .str "Try again", .str "Check API key", .str "Contact support"]),
        ("correct_answer", .int 2)]

/-- The first value of the dict that is a non-empty list, in insertion
order (the `for key, value in quiz_data.items()` loop, lines 362-365). -/
def firstNonemptyArray : List (String × PyVal) → Option PyVal
  | [] => none
  | (_, .arr (x :: xs)) :: _ => some (.arr (x :: xs))
  | _ :: rest => firstNonemptyArray rest

/-- Shape dispatch on the parsed JSON (lines 354-368): a dict with a
`questions` key yields that value (whatever it is), a list yields itself, a
dict without the key yields its first non-empty list value or the
`ValueError` of the `for`-`else`, and anything else raises on `.items()`. -/
def extract_questions : PyVal → Except String PyVal
  | .obj fs =>
    match lookupField fs "questions" with
    | some v => .ok v
    | none =>
      match firstNonemptyArray fs with
      | some v => .ok v
      | none => .error "Could not extract questions array from response"
  | .arr xs => .ok (.arr xs)
  | _ => .error "AttributeError: object has no attribute items"

/-- Validation applied to a raw question that is not a dict: the three
membership tests run with Python `in` semantics and, if they all succeed,
the subscript `q["correct_answer"]` raises `TypeError`. -/
def validate_nonobj (q : PyVal) : Except String (Option PyVal) :=
  match pyContains "question" q with
  | .error e => .error e
  | .ok false => .ok none
  | .ok true =>
    match pyContains "options" q with
    | .error e => .error e
    | .ok false => .ok none
    | .ok true =>
      match pyContains "correct_answer" q with
      | .error e => .error e
      | .ok false => .ok none
      | .ok true => .error "TypeError: indices must be integers"

/-- The body of the validation loop once the three fields are present on a
dict question (lines 374-383): a digit-string `correct_answer` is coerced
to an int; then a value that is not a Python int, is negative, or is at
least `len(options)` is replaced by `0`; `len` of an unsized `options`
value raises (only reached when the answer is a non-negative int).  The
second subscript `q["correct_answer"]` re-reads the coerced value, and
`q["options"]` is unaffected by setting `correct_answer`.  `repair_range`
is the second `if` (range check and default-to-0 repair) applied to the
post-coercion fields `fs1` and answer value `ca1`. -/
def repair_range (fs1 : List (String × PyVal)) (opts ca1 : PyVal) :
    Except String (Option PyVal) :=
  match asPyInt ca1 with
  | none => .ok (some (.obj (setField fs1 "correct_answer" (.int 0))))
  | some i =>
    if i < 0 then .ok (some (.obj (setField fs1 "correct_answer" (.int 0))))
    else
      match pyLen opts with
      | .error e => .error e
      | .ok n =>
        if (n : Int) ≤ i then .ok (some (.obj (setField fs1 "correct_answer" (.int 0))))
        else .ok (some (.obj fs1))

def validate_fields (fs : List (String × PyVal)) (opts ca0 : PyVal) :
    Except String (Option PyVal) :=
  let fs1 := match ca0 with
    | .str s => if pyIsDigit s then setField fs "correct_answer" (.int (strToNat s)) else fs
    | _ => fs
  let ca1 := match ca0 with
    | .str s => if pyIsDigit s then PyVal.int (strToNat s) else ca0
    | _ => ca0
  repair_range fs1 opts ca1

/-- One iteration of the validation loop (lines 372-383): `.ok none` means
the question is silently dropped, `.ok (some q1)` that `q1` is appended. -/
def validate_question (q : PyVal) : Except String (Option PyVal) :=
  match q with
  | .obj fs =>
    match lookupField fs "question", lookupField fs "options", lookupField fs "correct_answer" with
    | some _, some opts, some ca0 => validate_fields fs opts ca0
    | _, _, _ => .ok none
  | _ => validate_nonobj q

/-- The whole validation loop: sequential, first raise aborts. -/
def validate_questions : List PyVal → Except String (List PyVal)
  | [] => .ok []
  | q :: rest =>
    match validate_question q with
    | .error e => .error e
    | .ok none => validate_questions rest
    | .ok (some q1) =>
      match validate_questions rest with
      | .error e => .error e
      | .ok out => .ok (q1 :: out)

/-- The inner `try` block (lines 352-385) given the `json.loads` outcome:
parse, shape dispatch, iteration, validation. -/
def run_inner (parsed : Except String PyVal) : Except String (List PyVal) :=
  match parsed with
  | .error e => .error e
  | .ok j =>
    match extract_questions j with
    | .error e => .error e
    | .ok qv =>
      match pyIter qv with
      | .error e => .error e
      | .ok qs => validate_questions qs

/-- The inner `try`/`except` (lines 352-389): any raise inside the block
becomes the single synthetic parse-error question. -/
def quiz_inner (parsed : Except String PyVal) : List PyVal :=
  match run_inner parsed with
  | .ok qs => qs
  | .error e => [error_parsing_question e]

/-- Outcome of the live LLM interaction for the quiz: either the chat call
raised, or it returned content whose `json.loads` outcome is given. -/
inductive QuizLLM where
  | callError : String → QuizLLM
  | content : Except String PyVal → QuizLLM

/-- `generate_quiz_questions` (lines 272-394).  The transcript and the
requested count only feed the prompt of the opaque call; stub mode ignores
both and returns the two fixed mock questions. -/
def generate_quiz_questions (hasGroq : Bool) (_transcript : List Char)
    (_num_questions : Int) (llm : QuizLLM) : List PyVal :=
  if !hasGroq then mock_quiz_questions
  else
    match llm with
    | .callError e => [error_generating_question e]
    | .content parsed => quiz_inner parsed

/-! ## Summary and quiz endpoints (lines 239-270 and 396-435 of app.py)

Both endpoint bodies sit inside `try ... except Exception as e: raise
HTTPException(500, ...)`.  `fastapi.HTTPException` derives from `Exception`,
so the deliberate 400 raised for an empty transcript is caught by that
handler and re-raised as a 500; the same holds for the `TypeError` raised
by `min(None, 10)`.  `str(e)` of a starlette `HTTPException` renders as
`"<status>: <detail>"`. -/

/-- Exceptions the endpoint bodies can raise. -/
inductive PyExc where
  | http : Nat → String → PyExc
  | typeErr : String → PyExc

/-- Python `str(e)` for the exceptions above. -/
def pyExcStr : PyExc → String
  | .http s d => Nat.repr s ++ ": " ++ d
  | .typeErr m => m

/-- Paraphrase of the CPython message for `min(None, 10)` (the exact text
compares `int` and `NoneType`; it is embedded in the 500 detail). -/
def none_comparison_type_error : String :=
  "TypeError: < not supported between instances of int and NoneType"

structure SummaryResponse where
  success : Bool
  summary : String

/-- `generate_summary_endpoint` (lines 247-270): empty transcript raises a
400 inside the `try`; the truncated transcript goes to the generator; the
blanket `except` converts any raise into a 500 with the stringified
exception embedded. -/
def generate_summary_endpoint (hasGroq : Bool) (llm : Except String String)
    (transcript : List Char) : Except HTTPError SummaryResponse :=
  let body : Except PyExc SummaryResponse :=
    if transcript.isEmpty then .error (.http 400 "Transcript is required")
    else .ok ⟨true, generate_bullet_summary hasGroq llm (truncate_transcript transcript)⟩
  match body with
  | .ok r => .ok r
  | .error e => .error ⟨500, "Error generating summary: " ++ pyExcStr e⟩

/-- Pydantic parse of the `num_questions: Optional[int] = 5` field of the
request body: the default applies only when the field is omitted; an
explicit JSON `null` is accepted by `Optional[int]` and yields Python
`None`. -/
inductive NumQuestionsField where
  | missing : NumQuestionsField
  | null : NumQuestionsField
  | int : Int → NumQuestionsField

def parse_num_questions : NumQuestionsField → Option Int
  | .missing => some 5
  | .null => none
  | .int n => some n

/-- The clamp `max(1, min(n, 10))` (line 426). -/
def clamp_num_questions (n : Int) : Int := max 1 (min n 10)

structure QuizResponse where
  success : Bool
  questions : List PyVal

/-- `generate_quiz_endpoint` (lines 410-435): empty transcript raises a 400
inside the `try`; truncation, then the clamp, which raises `TypeError` when
`num_questions` is `None`; the blanket `except` converts any raise into a
500.  The response model only shapes the validated questions, it does not
constrain option counts. -/
def generate_quiz_endpoint (hasGroq : Bool) (llm : QuizLLM)
    (transcript : List Char) (numQuestions : Option Int) : Except HTTPError QuizResponse :=
  let body : Except PyExc QuizResponse :=
    if transcript.isEmpty then .error (.http 400 "Transcript is required")
    else
      match numQuestions with
      | none => .error (.typeErr none_comparison_type_error)
      | some n =>
        .ok ⟨true, generate_quiz_questions hasGroq (truncate_transcript transcript)
                     (clamp_num_questions n) llm⟩
  match body with
  | .ok r => .ok r
  | .error e => .error ⟨500, "Error generating quiz: " ++ pyExcStr e⟩

/-! ## Invariant predicates used by the theorems below -/

/-- The invariant the specification claims for every returned question:
`correct_answer` is an integer index into `options`, and `options` has
exactly 4 entries. -/
def claimed_question_check (q : PyVal) : Bool :=
  match q with
  | .obj fs =>
    match lookupField fs "correct_answer", lookupField fs "options" with
    | some ca, some (.arr xs) =>
      match asPyInt ca with
      | some i => decide (0 ≤ i) && decide (i < (xs.length : Int)) && decide (xs.length = 4)
      | none => false
    | _, _ => false
  | _ => false

/-- The invariant the code actually establishes for every returned
question: `correct_answer` is a Python int `i ≥ 0` that is either `0` (the
repair default) or a valid index into a sized `options` value; the option
count is not constrained. -/
def question_invariant (q : PyVal) : Bool :=
  match q with
  | .obj fs =>
    match lookupField fs "correct_answer", lookupField fs "options" with
    | some ca, some opts =>
      match asPyInt ca with
      | some i =>
        decide (0 ≤ i) &&
          (decide (i = 0) || (match pyLen opts with | .ok n => decide (i < (n : Int)) | .error _ => false))
      | none => false
    | _, _ => false
  | _ => false

/-- Parsed JSON values that are neither a list nor a dict: on these the
shape dispatch reaches `quiz_data.items()` and raises `AttributeError`. -/
def isScalar : PyVal → Bool
  | .null => true
  | .bool _ => true
  | .int _ => true
  | .float _ => true
  | .str _ => true
  | .arr _ => false
  | .obj _ => false

/-! ## Helper lemmas -/

theorem not_mem_removeIfExists (l : List String) (f : String) : f ∉ removeIfExists l f := by
  simp [removeIfExists, List.mem_filter]

/-! ## Theorems for the claims -/

/-- C2: for an empty `transcript`, both endpoints do raise the intended
`HTTPException(400)` inside the `try`, but the blanket
`except Exception` catches it (an `HTTPException` is an `Exception`) and
re-raises `HTTPException(500, ...)` with the stringified 400 embedded, so
the caller observes a 500-class response, not the 400-class one the claim
and the specification state. -/
theorem empty_transcript_yields_500 :
    (∀ hasGroq llm, generate_summary_endpoint hasGroq llm [] =
      .error ⟨500, "Error generating summary: 400: Transcript is required"⟩) ∧
    (∀ hasGroq llm nq, generate_quiz_endpoint hasGroq llm [] nq =
      .error ⟨500, "Error generating quiz: 400: Transcript is required"⟩) :=
  ⟨fun _ _ => rfl, fun _ _ _ => rfl⟩

/-- C3 counterexample: with the `DEEPGRAM_API_KEY` environment variable
absent, the module body raises `ValueError`, so process startup does not
succeed, contrary to the claim. -/
theorem missing_deepgram_key_startup_fails :
    startup_check none ≠ .ok () := fun h => Except.noConfusion h

/-- C3 (amended): absence (or emptiness) of the transcription credential is
a fatal startup error; the transcription component does contain a stub
branch returning the fixed deterministic mock payload for every input, but
it is unreachable in a started process because startup fails first. -/
theorem missing_deepgram_key_fatal_and_stub :
    startup_check none = .error "Missing DEEPGRAM_API_KEY environment variable" ∧
    startup_check (some "") = .error "Missing DEEPGRAM_API_KEY environment variable" ∧
    (∀ provider, transcribe_audio none provider = .ok mock_transcription) ∧
    (∀ provider, transcribe_audio (some "") provider = .ok mock_transcription) :=
  ⟨rfl, rfl, fun _ => rfl, fun _ => rfl⟩

/-- C4 counterexample: when the save itself fails after `open` has created
the file (e.g. `shutil.copyfileobj` raises), the `except` of the save block
re-raises a 500 before any cleanup code runs, and the uniquely named file
is still on disk after the response — an accepted upload and a failure path
on which the file survives. -/
theorem upload_save_failure_leaves_file :
    (pyStartsWith "audio/mpeg" "audio/" = true) ∧
    (transcribe_audio_endpoint "audio/mpeg" "f.mp3" "u.mp3" (.failAfterCreate "disk full")
        (.error ⟨500, "x"⟩) []).1 = .error ⟨500, "Error saving file: disk full"⟩ ∧
    "u.mp3" ∈ (transcribe_audio_endpoint "audio/mpeg" "f.mp3" "u.mp3" (.failAfterCreate "disk full")
        (.error ⟨500, "x"⟩) []).2 :=
  ⟨by decide, rfl, by exact List.Mem.head _⟩

/-- C4 (amended): once the uploaded file has been successfully written, it
is removed from the upload directory before the response on the success
path and on every transcription-failure path (the `except` and `finally`
blocks both delete it); only a failure of the save step itself can leave
the partially written file behind. -/
theorem uploaded_file_always_removed :
    ∀ (ct filename uniqueName : String) (tr : Except HTTPError PyVal) (files0 : List String),
      pyStartsWith ct "audio/" = true →
      uniqueName ∉ (transcribe_audio_endpoint ct filename uniqueName .ok tr files0).2 := by
  intro ct filename uniqueName tr files0 hct
  unfold transcribe_audio_endpoint
  simp only [hct, Bool.not_true, Bool.false_eq_true, if_false]
  split
  · exact not_mem_removeIfExists _ _
  · split
    · exact not_mem_removeIfExists _ _
    · split
      · exact not_mem_removeIfExists _ _
      · exact not_mem_removeIfExists _ _

theorem uploaded_file_always_removed_witness :
    (pyStartsWith "audio/wav" "audio/" = true) ∧
    "u1.wav" ∉ (transcribe_audio_endpoint "audio/wav" "f.wav" "u1.wav" .ok
        (.error ⟨500, "Error during transcription: x"⟩) ["other"]).2 :=
  ⟨by decide, uploaded_file_always_removed "audio/wav" "f.wav" "u1.wav"
      (.error ⟨500, "Error during transcription: x"⟩) ["other"] (by decide)⟩

/-- C5: the summary generator converts a caught provider failure into a
string embedding the error message instead of raising, and for every
nonempty transcript the endpoint wraps whatever string the generator
returned — including such an error-embedding one — in a successful
`success = true` response. -/
theorem summary_error_containment :
    (∀ e (t : List Char), generate_bullet_summary true (.error e) t =
      "Error generating summary: " ++ e) ∧
    (∀ hasGroq llm (t : List Char), t ≠ [] → generate_summary_endpoint hasGroq llm t =
      .ok ⟨true, generate_bullet_summary hasGroq llm (truncate_transcript t)⟩) := by
  refine ⟨fun e t => rfl, ?_⟩
  intro hasGroq llm t h
  cases t with
  | nil => exact absurd rfl h
  | cons a as => rfl

theorem summary_error_containment_witness :
    generate_summary_endpoint true (.error "boom") ['h'] =
      .ok ⟨true, generate_bullet_summary true (.error "boom") (truncate_transcript ['h'])⟩ :=
  summary_error_containment.2 true (.error "boom") ['h'] (by decide)

/-- C8: a transcript of exactly 16000 characters reaches the generator
unmodified, one of 16001 or more characters is cut to its first 16000
characters with the truncation marker appended, and both endpoints pass
exactly the truncated transcript to their generator. -/
theorem truncation_boundary : ∀ t : List Char,
    (t.length = 16000 → truncate_transcript t = t) ∧
    (16001 ≤ t.length → truncate_transcript t = t.take 16000 ++ truncation_marker) ∧
    (∀ hasGroq llm, t ≠ [] → generate_summary_endpoint hasGroq llm t =
      .ok ⟨true, generate_bullet_summary hasGroq llm (truncate_transcript t)⟩) ∧
    (∀ hasGroq llm n, t ≠ [] → generate_quiz_endpoint hasGroq llm t (some n) =
      .ok ⟨true, generate_quiz_questions hasGroq (truncate_transcript t)
            (clamp_num_questions n) llm⟩) := by
  intro t
  refine ⟨?_, ?_, ?_, ?_⟩
  · intro h
    simp only [truncate_transcript, max_length]
    rw [if_neg (by omega)]
    exact List.take_of_length_le (by omega)
  · intro h
    simp only [truncate_transcript, max_length]
    rw [if_pos (by omega)]
  · intro hasGroq llm h
    cases t with
    | nil => exact absurd rfl h
    | cons a as => rfl
  · intro hasGroq llm n h
    cases t with
    | nil => exact absurd rfl h
    | cons a as => rfl

theorem truncation_boundary_witness :
    truncate_transcript (List.replicate 16000 'a') = List.replicate 16000 'a' ∧
    truncate_transcript (List.replicate 16001 'a') =
      (List.replicate 16001 'a').take 16000 ++ truncation_marker ∧
    generate_summary_endpoint false (.ok "s") (List.replicate 16000 'a') =
      .ok ⟨true, generate_bullet_summary false (.ok "s")
            (truncate_transcript (List.replicate 16000 'a'))⟩ ∧
    generate_quiz_endpoint false (.callError "") (List.replicate 16000 'a') (some 3) =
      .ok ⟨true, generate_quiz_questions false (truncate_transcript (List.replicate 16000 'a'))
            (clamp_num_questions 3) (.callError "")⟩ :=
  ⟨(truncation_boundary _).1 (by rw [List.length_replicate]),
   (truncation_boundary _).2.1 (by rw [List.length_replicate]),
   (truncation_boundary _).2.2.1 false (.ok "s") (by
     intro h
     have := congrArg List.length h
     rw [List.length_replicate, List.length_nil] at this
     exact absurd this (by omega)),
   (truncation_boundary _).2.2.2 false (.callError "") 3 (by
     intro h
     have := congrArg List.length h
     rw [List.length_replicate, List.length_nil] at this
     exact absurd this (by omega))⟩

/-- C9: the clamp `max(1, min(n, 10))` keeps every requested count inside
`[1, 10]`, sends 0 to 1, 15 to 10 and -1 to 1, and the quiz endpoint
passes exactly the clamped value to the quiz generator. -/
theorem num_questions_clamping :
    (∀ n : Int, 1 ≤ clamp_num_questions n ∧ clamp_num_questions n ≤ 10) ∧
    clamp_num_questions 0 = 1 ∧ clamp_num_questions 15 = 10 ∧
    clamp_num_questions (-1) = 1 ∧
    (∀ hasGroq llm (t : List Char) n, t ≠ [] →
      generate_quiz_endpoint hasGroq llm t (some n) =
        .ok ⟨true, generate_quiz_questions hasGroq (truncate_transcript t)
              (clamp_num_questions n) llm⟩) := by
  refine ⟨?_, by decide, by decide, by decide, ?_⟩
  · intro n
    exact ⟨le_max_left _ _, max_le (by norm_num) (min_le_right _ _)⟩
  · intro hasGroq llm t n h
    cases t with
    | nil => exact absurd rfl h
    | cons a as => rfl

theorem num_questions_clamping_witness :
    generate_quiz_endpoint false (.callError "") ['h'] (some 15) =
      .ok ⟨true, generate_quiz_questions false (truncate_transcript ['h'])
            (clamp_num_questions 15) (.callError "")⟩ :=
  num_questions_clamping.2.2.2.2 false (.callError "") ['h'] 15 (by decide)

/-- C10: an explicit JSON `null` for `num_questions` is accepted by the
request model and becomes Python `None`; `max(1, min(None, 10))` then
raises `TypeError` inside the `try`, so the endpoint answers with a
500-class error instead of the documented default of 5, which applies only
when the field is omitted. -/
theorem null_num_questions_type_error :
    parse_num_questions .missing = some 5 ∧
    (∀ n, parse_num_questions (.int n) = some n) ∧
    parse_num_questions .null = none ∧
    (∀ hasGroq llm (t : List Char), t ≠ [] →
      generate_quiz_endpoint hasGroq llm t (parse_num_questions .null) =
        .error ⟨500, "Error generating quiz: " ++
          pyExcStr (.typeErr none_comparison_type_error)⟩) := by
  refine ⟨rfl, fun n => rfl, rfl, ?_⟩
  intro hasGroq llm t h
  cases t with
  | nil => exact absurd rfl h
  | cons a as => rfl

theorem null_num_questions_type_error_witness :
    generate_quiz_endpoint true (.callError "") ['h'] (parse_num_questions .null) =
      .error ⟨500, "Error generating quiz: " ++
        pyExcStr (.typeErr none_comparison_type_error)⟩ :=
  null_num_questions_type_error.2.2.2 true (.callError "") ['h'] (by decide)

/-! ## Lemmas about the validation pipeline -/

theorem lookupField_setField_self (fs : List (String × PyVal)) (k : String) (v : PyVal) :
    lookupField (setField fs k v) k = some v := by
  induction fs with
  | nil => simp [setField, lookupField]
  | cons kv rest ih =>
    obtain ⟨k1, v1⟩ := kv
    by_cases h : k1 = k
    · simp [setField, lookupField, h]
    · simp [setField, lookupField, h, ih]

theorem lookupField_setField_ne (fs : List (String × PyVal)) (k k1 : String) (v : PyVal)
    (h : k ≠ k1) : lookupField (setField fs k v) k1 = lookupField fs k1 := by
  induction fs with
  | nil => simp [setField, lookupField, h]
  | cons kv rest ih =>
    obtain ⟨k2, v2⟩ := kv
    by_cases h2 : k2 = k
    · subst h2
      simp [setField, lookupField, h]
    · simp [setField, lookupField, h2, ih]

theorem startsWithChars_length (n s : List Char) (h : startsWithChars n s = true) :
    n.length ≤ s.length := by
  induction n generalizing s with
  | nil => simp
  | cons a as ih =>
    cases s with
    | nil => simp [startsWithChars] at h
    | cons b bs =>
      simp only [startsWithChars, Bool.and_eq_true] at h
      simpa using ih bs h.2

theorem containsChars_length (n s : List Char) (h : containsChars n s = true) :
    n.length ≤ s.length := by
  induction s with
  | nil => simpa using startsWithChars_length n [] h
  | cons b bs ih =>
    simp only [containsChars, Bool.or_eq_true] at h
    rcases h with h | h
    · exact startsWithChars_length _ _ h
    · have := ih h
      simp only [List.length_cons]
      omega

/-- A one-character string never contains the needle `question`, so such a
raw question fails the first membership test and is dropped. -/
theorem validate_question_char (c : Char) :
    validate_question (.str (String.mk [c])) = .ok none := by
  have h : containsChars "question".toList [c] = false := by
    cases h : containsChars "question".toList [c] with
    | false => rfl
    | true =>
      have hle := containsChars_length _ _ h
      have h8 : ("question".toList).length = 8 := rfl
      rw [h8] at hle
      simp at hle
  have hts : (String.mk [c]).toList = [c] := rfl
  simp only [validate_question, validate_nonobj, pyContains, hts, h]

/-- All elements of the char-iteration of any string are dropped. -/
theorem validate_questions_chars (cs : List Char) :
    validate_questions (cs.map (fun c => PyVal.str (String.mk [c]))) = .ok [] := by
  induction cs with
  | nil => rfl
  | cons c rest ih =>
    simp only [List.map_cons, validate_questions, validate_question_char c, ih]

theorem invariant_repaired (fs1 : List (String × PyVal))
    (hopts : (lookupField fs1 "options").isSome = true) :
    question_invariant (.obj (setField fs1 "correct_answer" (.int 0))) = true := by
  simp only [question_invariant]
  rw [lookupField_setField_self]
  rw [lookupField_setField_ne _ _ _ _ (by decide)]
  cases hop : lookupField fs1 "options" with
  | none => rw [hop] at hopts; simp at hopts
  | some opts => rfl

theorem invariant_kept (fs1 : List (String × PyVal)) (opts ca1 : PyVal) (i : Int) (n : Nat)
    (hca : lookupField fs1 "correct_answer" = some ca1)
    (hopts : lookupField fs1 "options" = some opts)
    (hai : asPyInt ca1 = some i) (h0 : 0 ≤ i)
    (hlen : pyLen opts = .ok n) (hlt : i < (n : Int)) :
    question_invariant (.obj fs1) = true := by
  simp only [question_invariant]
  rw [hca, hopts]
  simp only [hai, hlen, h0, hlt, decide_eq_true_eq]
  simp [h0, hlt]

theorem repair_range_invariant (fs1 : List (String × PyVal)) (opts ca1 q1 : PyVal)
    (hca : lookupField fs1 "correct_answer" = some ca1)
    (hopts : lookupField fs1 "options" = some opts)
    (h : repair_range fs1 opts ca1 = .ok (some q1)) :
    question_invariant q1 = true := by
  have hop : (lookupField fs1 "options").isSome = true := by rw [hopts]; rfl
  unfold repair_range at h
  cases hai : asPyInt ca1 with
  | none =>
    rw [hai] at h
    injection h with h1
    injection h1 with h2
    rw [← h2]
    exact invariant_repaired fs1 hop
  | some i =>
    rw [hai] at h
    dsimp only at h
    by_cases h0 : i < 0
    · rw [if_pos h0] at h
      injection h with h1
      injection h1 with h2
      rw [← h2]
      exact invariant_repaired fs1 hop
    · rw [if_neg h0] at h
      cases hlen : pyLen opts with
      | error e => rw [hlen] at h; exact Except.noConfusion h
      | ok n =>
        rw [hlen] at h
        dsimp only at h
        by_cases hle : (n : Int) ≤ i
        · rw [if_pos hle] at h
          injection h with h1
          injection h1 with h2
          rw [← h2]
          exact invariant_repaired fs1 hop
        · rw [if_neg hle] at h
          injection h with h1
          injection h1 with h2
          rw [← h2]
          exact invariant_kept fs1 opts ca1 i n hca hopts hai (by omega) hlen (by omega)

theorem validate_fields_invariant (fs : List (String × PyVal)) (opts ca0 q1 : PyVal)
    (hca : lookupField fs "correct_answer" = some ca0)
    (hopts : lookupField fs "options" = some opts)
    (h : validate_fields fs opts ca0 = .ok (some q1)) :
    question_invariant q1 = true := by
  unfold validate_fields at h
  cases ca0 with
  | str s =>
    by_cases hd : pyIsDigit s
    · simp only [hd, if_true] at h
      exact repair_range_invariant _ _ _ _ (lookupField_setField_self fs _ _)
        (by rw [lookupField_setField_ne _ _ _ _ (by decide)]; exact hopts) h
    · simp only [hd, if_false, Bool.false_eq_true] at h
      exact repair_range_invariant _ _ _ _ hca hopts h
  | null => exact repair_range_invariant _ _ _ _ hca hopts h
  | bool b => exact repair_range_invariant _ _ _ _ hca hopts h
  | int n => exact repair_range_invariant _ _ _ _ hca hopts h
  | float x => exact repair_range_invariant _ _ _ _ hca hopts h
  | arr xs => exact repair_range_invariant _ _ _ _ hca hopts h
  | obj fs2 => exact repair_range_invariant _ _ _ _ hca hopts h

theorem validate_nonobj_never_some (q q1 : PyVal)
    (h : validate_nonobj q = .ok (some q1)) : False := by
  unfold validate_nonobj at h
  cases h1 : pyContains "question" q with
  | error e => rw [h1] at h; exact Except.noConfusion h
  | ok b1 =>
    rw [h1] at h
    cases b1 with
    | false => simp at h
    | true =>
      cases h2 : pyContains "options" q with
      | error e => rw [h2] at h; exact Except.noConfusion h
      | ok b2 =>
        rw [h2] at h
        cases b2 with
        | false => simp at h
        | true =>
          cases h3 : pyContains "correct_answer" q with
          | error e => rw [h3] at h; exact Except.noConfusion h
          | ok b3 =>
            rw [h3] at h
            cases b3 with
            | false => simp at h
            | true => exact Except.noConfusion h

theorem validate_question_invariant (q q1 : PyVal)
    (h : validate_question q = .ok (some q1)) : question_invariant q1 = true := by
  cases q with
  | obj fs =>
    unfold validate_question at h
    dsimp only at h
    cases hq : lookupField fs "question" with
    | none => rw [hq] at h; simp at h
    | some qv =>
      rw [hq] at h
      cases hopts : lookupField fs "options" with
      | none => rw [hopts] at h; simp at h
      | some opts =>
        rw [hopts] at h
        cases hca : lookupField fs "correct_answer" with
        | none => rw [hca] at h; simp at h
        | some ca0 =>
          rw [hca] at h
          dsimp only at h
          exact validate_fields_invariant fs opts ca0 q1 hca hopts h
  | null =>
    have h2 : validate_nonobj PyVal.null = .ok (some q1) := h
    exact (validate_nonobj_never_some _ _ h2).elim
  | bool b =>
    have h2 : validate_nonobj (PyVal.bool b) = .ok (some q1) := h
    exact (validate_nonobj_never_some _ _ h2).elim
  | int n =>
    have h2 : validate_nonobj (PyVal.int n) = .ok (some q1) := h
    exact (validate_nonobj_never_some _ _ h2).elim
  | float x =>
    have h2 : validate_nonobj (PyVal.float x) = .ok (some q1) := h
    exact (validate_nonobj_never_some _ _ h2).elim
  | str s =>
    have h2 : validate_nonobj (PyVal.str s) = .ok (some q1) := h
    exact (validate_nonobj_never_some _ _ h2).elim
  | arr xs =>
    have h2 : validate_nonobj (PyVal.arr xs) = .ok (some q1) := h
    exact (validate_nonobj_never_some _ _ h2).elim

theorem validate_questions_invariant : ∀ (qs out : List PyVal),
    validate_questions qs = .ok out → ∀ q ∈ out, question_invariant q = true := by
  intro qs
  induction qs with
  | nil =>
    intro out h q hq
    unfold validate_questions at h
    injection h with h1
    rw [← h1] at hq
    exact absurd hq (List.not_mem_nil q)
  | cons a as ih =>
    intro out h q hq
    unfold validate_questions at h
    cases hva : validate_question a with
    | error e => rw [hva] at h; exact Except.noConfusion h
    | ok o =>
      rw [hva] at h
      cases o with
      | none => exact ih out h q hq
      | some q1 =>
        cases hrest : validate_questions as with
        | error e => rw [hrest] at h; exact Except.noConfusion h
        | ok out1 =>
          rw [hrest] at h
          injection h with h1
          rw [← h1] at hq
          cases hq with
          | head => exact validate_question_invariant a _ hva
          | tail _ hm => exact ih out1 hrest q hm

theorem run_inner_invariant (parsed : Except String PyVal) (out : List PyVal)
    (h : run_inner parsed = .ok out) : ∀ q ∈ out, question_invariant q = true := by
  unfold run_inner at h
  cases parsed with
  | error e => exact Except.noConfusion h
  | ok j =>
    dsimp only at h
    cases he : extract_questions j with
    | error e => rw [he] at h; exact Except.noConfusion h
    | ok qv =>
      rw [he] at h
      dsimp only at h
      cases hi : pyIter qv with
      | error e => rw [hi] at h; exact Except.noConfusion h
      | ok qs =>
        rw [hi] at h
        dsimp only at h
        exact validate_questions_invariant qs out h

theorem validate_question_obj_eq (fs : List (String × PyVal)) (qv opts ca0 : PyVal)
    (hq : lookupField fs "question" = some qv)
    (hopts : lookupField fs "options" = some opts)
    (hca : lookupField fs "correct_answer" = some ca0) :
    validate_question (.obj fs) = validate_fields fs opts ca0 := by
  unfold validate_question
  dsimp only
  rw [hq, hopts, hca]

/-- C1 counterexample: a raw question whose `options` list is empty passes
validation (its `correct_answer` is repaired to 0, which is still not a
valid index) and is returned, so the claimed invariant
`0 <= correct_answer < len(options)` together with `len(options) == 4`
fails on an actual quiz generation. -/
theorem quiz_four_option_invariant_fails :
    ¬ (∀ q ∈ generate_quiz_questions true [] 5
          (.content (.ok (.arr [.obj [("question", .str "Q"),
                                      ("options", .arr []),
                                      ("correct_answer", .int 0)]]))),
        claimed_question_check q = true) := by decide

/-- C1 (amended): every question returned by any quiz generation carries a
Python-int `correct_answer` `i ≥ 0` that is either a valid index into its
`options` value or the repaired default `0`; the stub-mode and
degraded/error-mode questions additionally have exactly 4 options with a
valid index, but the live validation path never checks the option count,
and with an empty options list the repaired 0 is still out of range.  A raw
question whose integer `correct_answer` is out of range is repaired to 0
before being returned. -/
theorem quiz_question_invariants :
    (∀ hasGroq (t : List Char) (n : Int) llm q,
       q ∈ generate_quiz_questions hasGroq t n llm → question_invariant q = true) ∧
    (∀ (t : List Char) (n : Int) llm q,
       q ∈ generate_quiz_questions false t n llm → claimed_question_check q = true) ∧
    (∀ e, claimed_question_check (error_generating_question e) = true ∧
          claimed_question_check (error_parsing_question e) = true) ∧
    (∀ fs qv xs (i : Int), lookupField fs "question" = some qv →
       lookupField fs "options" = some (.arr xs) →
       lookupField fs "correct_answer" = some (.int i) →
       (i < 0 ∨ (xs.length : Int) ≤ i) →
       validate_question (.obj fs) =
         .ok (some (.obj (setField fs "correct_answer" (.int 0))))) := by
  refine ⟨?_, ?_, ?_, ?_⟩
  · intro hasGroq t n llm q hq
    cases hasGroq with
    | false =>
      have hh : q ∈ mock_quiz_questions := hq
      simp only [mock_quiz_questions, List.mem_cons, List.not_mem_nil, or_false] at hh
      rcases hh with rfl | rfl <;> decide
    | true =>
      cases llm with
      | callError e =>
        have hh : q ∈ [error_generating_question e] := hq
        rw [List.mem_singleton] at hh
        subst hh
        rfl
      | content parsed =>
        have hh : q ∈ quiz_inner parsed := hq
        unfold quiz_inner at hh
        cases hr : run_inner parsed with
        | ok out =>
          rw [hr] at hh
          exact run_inner_invariant parsed out hr q hh
        | error e =>
          rw [hr] at hh
          dsimp only at hh
          rw [List.mem_singleton] at hh
          subst hh
          rfl
  · intro t n llm q hq
    have hh : q ∈ mock_quiz_questions := hq
    simp only [mock_quiz_questions, List.mem_cons, List.not_mem_nil, or_false] at hh
    rcases hh with rfl | rfl <;> decide
  · intro e
    exact ⟨rfl, rfl⟩
  · intro fs qv xs i hq hopts hca hrange
    rw [validate_question_obj_eq fs qv (.arr xs) (.int i) hq hopts hca]
    unfold validate_fields
    dsimp only
    unfold repair_range
    dsimp only [asPyInt]
    rcases hrange with h | h
    · rw [if_pos h]
    · rw [if_neg (by omega)]
      dsimp only [pyLen]
      rw [if_pos h]

theorem quiz_question_invariants_witness :
    question_invariant (error_parsing_question "bad json") = true ∧
    claimed_question_check (.obj [("question", .str "What is the main topic of this mock transcript?"),
         ("options", .arr [.str "Artificial Intelligence", .str "Machine Learning",
                           .str "Data Science", .str "Mock Data"]),
         ("correct_answer", .int 3)]) = true ∧
    validate_question (.obj [("question", .str "Q"),
        ("options", .arr [.str "A", .str "B"]),
        ("correct_answer", .int 5)]) =
      .ok (some (.obj (setField [("question", .str "Q"),
        ("options", .arr [.str "A", .str "B"]),
        ("correct_answer", .int 5)] "correct_answer" (.int 0)))) :=
  ⟨quiz_question_invariants.1 true [] 5 (.content (.error "bad json")) _ (List.Mem.head _),
   quiz_question_invariants.2.1 [] 5 (.callError "") _ (List.Mem.head _),
   quiz_question_invariants.2.2.2 [("question", .str "Q"),
        ("options", .arr [.str "A", .str "B"]),
        ("correct_answer", .int 5)] (.str "Q") [.str "A", .str "B"] 5 rfl rfl rfl
     (Or.inr (by decide))⟩

/-- C6 counterexample: when the LLM response parses to an object whose
`questions` key holds a string (an iterable that is not an array), no array
can be located, yet the code returns the empty list — the chars of the
string all fail the field checks and are dropped — instead of the single
synthetic error question the claim requires. -/
theorem quiz_string_questions_not_error_question :
    generate_quiz_questions true [] 5 (.content (.ok (.obj [("questions", .str "ab")]))) = [] ∧
    (∀ e, [error_parsing_question e] ≠ ([] : List PyVal)) := by
  constructor
  · rfl
  · intro e h
    exact List.noConfusion h

/-- C6 (amended): normalization extracts the question array from a direct
JSON array, from an object whose `questions` key holds a value (used
whatever it is), or from the first non-empty array value of an object
without a `questions` key; a parse failure, a parsed scalar, or an object
with neither a `questions` key nor a non-empty array value yields the
single synthetic error question.  However, a `questions` key holding a
non-array iterable (e.g. a string) is fed to per-question validation
instead, yielding an empty question list rather than the synthetic error
question. -/
theorem quiz_shape_normalization :
    (∀ xs, extract_questions (.arr xs) = .ok (.arr xs)) ∧
    (∀ fs v, lookupField fs "questions" = some v → extract_questions (.obj fs) = .ok v) ∧
    (∀ fs v, lookupField fs "questions" = none → firstNonemptyArray fs = some v →
       extract_questions (.obj fs) = .ok v) ∧
    (∀ (t : List Char) (n : Int) e, generate_quiz_questions true t n (.content (.error e)) =
       [error_parsing_question e]) ∧
    (∀ (t : List Char) (n : Int) fs, lookupField fs "questions" = none →
       firstNonemptyArray fs = none →
       generate_quiz_questions true t n (.content (.ok (.obj fs))) =
         [error_parsing_question "Could not extract questions array from response"]) ∧
    (∀ (t : List Char) (n : Int) j, isScalar j = true →
       generate_quiz_questions true t n (.content (.ok j)) =
         [error_parsing_question "AttributeError: object has no attribute items"]) ∧
    (∀ (t : List Char) (n : Int) (s : String),
       generate_quiz_questions true t n (.content (.ok (.obj [("questions", .str s)]))) = []) := by
  refine ⟨fun xs => rfl, ?_, ?_, fun t n e => rfl, ?_, ?_, ?_⟩
  · intro fs v h
    unfold extract_questions
    dsimp only
    rw [h]
  · intro fs v h1 h2
    unfold extract_questions
    dsimp only
    rw [h1]
    dsimp only
    rw [h2]
  · intro t n fs h1 h2
    have he : extract_questions (.obj fs) =
        .error "Could not extract questions array from response" := by
      unfold extract_questions
      dsimp only
      rw [h1]
      dsimp only
      rw [h2]
    show quiz_inner (.ok (.obj fs)) =
      [error_parsing_question "Could not extract questions array from response"]
    unfold quiz_inner run_inner
    dsimp only
    rw [he]
  · intro t n j hs
    cases j with
    | null => rfl
    | bool b => rfl
    | int i => rfl
    | float x => rfl
    | str s => rfl
    | arr xs => simp [isScalar] at hs
    | obj fs => simp [isScalar] at hs
  · intro t n s
    have hrun : run_inner (.ok (.obj [("questions", .str s)])) =
        validate_questions (s.toList.map (fun c => PyVal.str (String.mk [c]))) := rfl
    show quiz_inner (.ok (.obj [("questions", .str s)])) = []
    unfold quiz_inner
    rw [hrun, validate_questions_chars s.toList]

theorem quiz_shape_normalization_witness :
    extract_questions (.obj [("questions", .arr [.null])]) = .ok (.arr [.null]) ∧
    extract_questions (.obj [("foo", .arr [.null])]) = .ok (.arr [.null]) ∧
    generate_quiz_questions true [] 5 (.content (.ok (.obj []))) =
      [error_parsing_question "Could not extract questions array from response"] ∧
    generate_quiz_questions true [] 5 (.content (.ok (.int 3))) =
      [error_parsing_question "AttributeError: object has no attribute items"] :=
  ⟨quiz_shape_normalization.2.1 _ _ rfl,
   quiz_shape_normalization.2.2.1 _ _ rfl rfl,
   quiz_shape_normalization.2.2.2.2.1 [] 5 [] rfl rfl,
   quiz_shape_normalization.2.2.2.2.2.1 [] 5 (.int 3) rfl⟩

/-- C7: a raw dict question missing any of `question`, `options` or
`correct_answer` is silently dropped; a digit-string `correct_answer` is
coerced to the integer it spells (and kept when in range); a
`correct_answer` that is not a Python int, or an integer outside
`[0, len(options))`, is defaulted to 0 and the question kept rather than
rejected. -/
theorem question_validation_rules :
    (∀ fs, (lookupField fs "question" = none ∨ lookupField fs "options" = none ∨
            lookupField fs "correct_answer" = none) →
       validate_question (.obj fs) = .ok none) ∧
    (∀ fs qv xs (s : String), lookupField fs "question" = some qv →
       lookupField fs "options" = some (.arr xs) →
       lookupField fs "correct_answer" = some (.str s) →
       pyIsDigit s = true → ((strToNat s : Int) < (xs.length : Int)) →
       validate_question (.obj fs) =
         .ok (some (.obj (setField fs "correct_answer" (.int (strToNat s)))))) ∧
    (∀ fs qv opts ca, lookupField fs "question" = some qv →
       lookupField fs "options" = some opts →
       lookupField fs "correct_answer" = some ca →
       asPyInt ca = none → (∀ s, ca = .str s → pyIsDigit s = false) →
       validate_question (.obj fs) =
         .ok (some (.obj (setField fs "correct_answer" (.int 0))))) ∧
    (∀ fs qv xs (i : Int), lookupField fs "question" = some qv →
       lookupField fs "options" = some (.arr xs) →
       lookupField fs "correct_answer" = some (.int i) →
       (i < 0 ∨ (xs.length : Int) ≤ i) →
       validate_question (.obj fs) =
         .ok (some (.obj (setField fs "correct_answer" (.int 0))))) := by
  refine ⟨?_, ?_, ?_, ?_⟩
  · intro fs h
    unfold validate_question
    dsimp only
    rcases h with h | h | h
    · rw [h]
    · cases h1 : lookupField fs "question" with
      | none => rfl
      | some qv => rw [h]
    · cases h1 : lookupField fs "question" with
      | none => rfl
      | some qv =>
        cases h2 : lookupField fs "options" with
        | none => rfl
        | some opts => rw [h]
  · intro fs qv xs s hq hopts hca hd hlt
    rw [validate_question_obj_eq fs qv (.arr xs) (.str s) hq hopts hca]
    unfold validate_fields
    dsimp only
    simp only [hd, if_true]
    unfold repair_range
    dsimp only [asPyInt]
    rw [if_neg (by omega)]
    dsimp only [pyLen]
    rw [if_neg (by omega)]
  · intro fs qv opts ca hq hopts hca hai hnd
    rw [validate_question_obj_eq fs qv opts ca hq hopts hca]
    cases ca with
    | str s =>
      have hd := hnd s rfl
      unfold validate_fields
      dsimp only
      simp only [hd, Bool.false_eq_true, if_false]
      unfold repair_range
      dsimp only [asPyInt]
    | null => rfl
    | bool b => simp [asPyInt] at hai
    | int n => simp [asPyInt] at hai
    | float x => rfl
    | arr xs => rfl
    | obj fs2 => rfl
  · intro fs qv xs i hq hopts hca hrange
    rw [validate_question_obj_eq fs qv (.arr xs) (.int i) hq hopts hca]
    unfold validate_fields
    dsimp only
    unfold repair_range
    dsimp only [asPyInt]
    rcases hrange with h | h
    · rw [if_pos h]
    · rw [if_neg (by omega)]
      dsimp only [pyLen]
      rw [if_pos h]

theorem question_validation_rules_witness :
    validate_question (.obj [("question", .str "Q"), ("options", .arr [.str "A"])]) = .ok none ∧
    validate_question (.obj [("question", .str "Q"),
        ("options", .arr [.str "A", .str "B", .str "C", .str "D"]),
        ("correct_answer", .str "2")]) =
      .ok (some (.obj (setField [("question", .str "Q"),
        ("options", .arr [.str "A", .str "B", .str "C", .str "D"]),
        ("correct_answer", .str "2")] "correct_answer" (.int (strToNat "2"))))) ∧
    validate_question (.obj [("question", .str "Q"),
        ("options", .arr [.str "A", .str "B", .str "C", .str "D"]),
        ("correct_answer", .null)]) =
      .ok (some (.obj (setField [("question", .str "Q"),
        ("options", .arr [.str "A", .str "B", .str "C", .str "D"]),
        ("correct_answer", .null)] "correct_answer" (.int 0)))) ∧
    validate_question (.obj [("question", .str "Q"),
        ("options", .arr [.str "A", .str "B", .str "C", .str "D"]),
        ("correct_answer", .int 7)]) =
      .ok (some (.obj (setField [("question", .str "Q"),
        ("options", .arr [.str "A", .str "B", .str "C", .str "D"]),
        ("correct_answer", .int 7)] "correct_answer" (.int 0)))) :=
  ⟨question_validation_rules.1 [("question", .str "Q"), ("options", .arr [.str "A"])]
      (Or.inr (Or.inr rfl)),
   question_validation_rules.2.1 [("question", .str "Q"),
        ("options", .arr [.str "A", .str "B", .str "C", .str "D"]),
        ("correct_answer", .str "2")] (.str "Q") [.str "A", .str "B", .str "C", .str "D"] "2"
      rfl rfl rfl (by decide) (by decide),
   question_validation_rules.2.2.1 [("question", .str "Q"),
        ("options", .arr [.str "A", .str "B", .str "C", .str "D"]),
        ("correct_answer", .null)] (.str "Q") (.arr [.str "A", .str "B", .str "C", .str "D"]) .null
      rfl rfl rfl rfl (fun s h => PyVal.noConfusion h),
   question_validation_rules.2.2.2 [("question", .str "Q"),
        ("options", .arr [.str "A", .str "B", .str "C", .str "D"]),
        ("correct_answer", .int 7)] (.str "Q") [.str "A", .str "B", .str "C", .str "D"] 7
      rfl rfl rfl (Or.inr (by decide))⟩
